import Mathlib

/-!
Shallow embedding of the role-based authorization and status-transition
core of the LagosStatePropertyPortal Django backend.  Each definition is
translated from a named function of the repository (file and line cited
in its doc comment); theorems settle the frozen claims about the spec.
-/

namespace LagosPortal

/-- Roles of the custom User model (src/users/models.py, ROLE_CHOICES). -/
inductive Role
  | admin
  | government
  | realEstateFirm
  | propertyOwner
  | buyerRenter
deriving DecidableEq, Repr

/-- The calling principal as resolved by the identity layer: id, role and
the KYC flag, plus whether the request is authenticated at all
(request.user.is_authenticated in the permission classes). -/
structure Actor where
  id : Nat
  role : Role
  authenticated : Bool
  is_verified : Bool
deriving DecidableEq, Repr

/-- Outcomes of a rejected request, mirroring the HTTP-level results the
views produce: DRF ValidationError (400), an explicit 400 Response,
permission denial (403), object outside the caller queryset (404), and an
unhandled exception escaping a serializer (500). -/
inductive ErrKind
  | validation
  | badRequest
  | forbidden
  | notFound
  | skipField
deriving DecidableEq, Repr

/-- Property.VERIFICATION_STATUS_CHOICES (src/properties/models.py). -/
inductive VerificationStatus
  | pending
  | verified
  | rejected
deriving DecidableEq, Repr

/-- The fields of the Property model that the verification, permission and
query-scoping code reads or writes (src/properties/models.py).  Users are
identified by their id; timestamps are abstract Nat instants; the price
is in minor units. -/
structure Property where
  id : Nat
  owner : Nat
  price : Nat
  verification_status : VerificationStatus
  rejection_reason : Option String
  verified_by : Option Nat
  verified_at : Option Nat
  is_featured : Bool
  is_active : Bool
deriving DecidableEq, Repr

/-- Python falsiness of an optional CharField value: attrs.get(k) is falsy
when the key is absent or the string is empty. -/
def strBlank : Option String → Bool
  | none => true
  | some s => s == ""

/-- PropertyVerificationSerializer.validate (src/properties/serializers.py
lines 116-119): raises a ValidationError when the requested status is
REJECTED and rejection_reason is missing or blank. -/
def propertyVerificationValidate (vs : VerificationStatus) (reason : Option String) :
    Except ErrKind Unit :=
  if vs = .rejected ∧ strBlank reason then .error .validation else .ok ()

/-- PropertyVerificationSerializer.update (src/properties/serializers.py
lines 121-131): writes the requested status; on REJECTED stores the
reason; on VERIFIED stamps verified_by with the acting user,
verified_at with the current time and clears rejection_reason.  Note the
REJECTED branch writes only rejection_reason: verified_by and
verified_at are left as they were. -/
def propertyVerificationUpdate (actorId now : Nat) (p : Property)
    (vs : VerificationStatus) (reason : Option String) : Property :=
  let p1 := { p with verification_status := vs }
  if p1.verification_status = .rejected then
    { p1 with rejection_reason := reason }
  else if p1.verification_status = .verified then
    { p1 with verified_by := some actorId, verified_at := some now,
              rejection_reason := none }
  else p1

/-- The serializer path of the verify action: is_valid (which runs
validate) followed by save (which runs update); on a validation error the
instance is never touched (src/properties/views.py lines 80-89). -/
def propertyVerify (actorId now : Nat) (p : Property)
    (vs : VerificationStatus) (reason : Option String) : Except ErrKind Property :=
  match propertyVerificationValidate vs reason with
  | .error e => .error e
  | .ok _ => .ok (propertyVerificationUpdate actorId now p vs reason)

/-- IsAdmin permission class (src/permissions.py): authenticated and
role == admin. -/
def IsAdmin (a : Actor) : Bool :=
  a.authenticated && (a.role == Role.admin)

/-- IsGovernmentAgency permission class (src/permissions.py lines 11-15):
authenticated and role == government. -/
def IsGovernmentAgency (a : Actor) : Bool :=
  a.authenticated && (a.role == Role.government)

/-- PropertyViewSet.get_permissions for the verify action
(src/properties/views.py lines 69-70): IsAdmin | IsGovernmentAgency. -/
def propertyVerifyPermitted (a : Actor) : Bool :=
  IsAdmin a || IsGovernmentAgency a

/-- The verify endpoint as dispatched by DRF: the permission check runs
before the handler, so a denied caller gets a 403 and the Property is
never loaded or modified; otherwise the serializer path runs. -/
def propertyVerifyEndpoint (a : Actor) (now : Nat) (p : Property)
    (vs : VerificationStatus) (reason : Option String) : Except ErrKind Property :=
  if propertyVerifyPermitted a then propertyVerify a.id now p vs reason
  else .error .forbidden

/-- The fields of the User model that the core reads or writes
(src/users/models.py). -/
structure UserRec where
  id : Nat
  email : String
  first_name : String
  last_name : String
  role : Role
  is_verified : Bool
deriving DecidableEq, Repr

/-- KYCVerification.STATUS_CHOICES (src/users/models.py). -/
inductive KYCStatus
  | pending
  | approved
  | rejected
deriving DecidableEq, Repr

/-- The KYCVerification model row (src/users/models.py): one-to-one with a
user, with the same verifier-stamp fields as Property. -/
structure KYCVerification where
  userId : Nat
  status : KYCStatus
  verified_by : Option Nat
  verified_at : Option Nat
  rejection_reason : Option String
deriving DecidableEq, Repr

/-- KYCVerificationUpdateSerializer.validate (src/users/serializers.py
lines 99-102): same guard as the property serializer. -/
def kycUpdateValidate (st : KYCStatus) (reason : Option String) :
    Except ErrKind Unit :=
  if st = .rejected ∧ strBlank reason then .error .validation else .ok ()

/-- KYCVerificationUpdateSerializer.update (src/users/serializers.py
lines 104-119).  REJECTED stores the reason and sets user.is_verified to
False, then both rows are saved; the verifier stamp fields are not
touched.  APPROVED assigns user.is_verified and verified_by in memory,
but the verified_at line evaluates DateTimeField().get_default(): that
field has no default, so DRF Field.get_default raises SkipField.  The
exception escapes update before user.save() and instance.save() run, so
nothing is persisted and the request fails; this is modelled as the
skipField error with the state unchanged.  A status of PENDING writes
only the status field. -/
def kycUpdate (reviewerId : Nat) (k : KYCVerification) (u : UserRec)
    (st : KYCStatus) (reason : Option String) :
    Except ErrKind (KYCVerification × UserRec) :=
  match kycUpdateValidate st reason with
  | .error e => .error e
  | .ok _ =>
    if st = .rejected then
      .ok ({ k with status := st, rejection_reason := reason },
           { u with is_verified := false })
    else if st = .approved then
      .error .skipField
    else
      .ok ({ k with status := st }, u)

/-- Payment.STATUS_CHOICES (src/payments/models.py). -/
inductive PayStatus
  | pending
  | completed
  | failed
  | refunded
deriving DecidableEq, Repr

/-- The fields of the Payment model that the completion logic touches
(src/payments/models.py lines 43-54). -/
structure Payment where
  id : Nat
  payer : Nat
  receiver : Nat
  status : PayStatus
  completed_at : Option Nat
deriving DecidableEq, Repr

/-- Payment.save (src/payments/models.py lines 59-62): stamps
completed_at with the current time only when the status is COMPLETED and
completed_at is still unset. -/
def paymentSave (now : Nat) (p : Payment) : Payment :=
  if p.status = .completed ∧ p.completed_at = none then
    { p with completed_at := some now }
  else p

/-- Invoice.STATUS_CHOICES (src/payments/models.py). -/
inductive InvStatus
  | pending
  | paid
  | overdue
  | cancelled
deriving DecidableEq, Repr

/-- The fields of the Invoice model the status logic touches
(src/payments/models.py lines 92-101); due_date and today are abstract
day numbers. -/
structure Invoice where
  id : Nat
  user : Nat
  status : InvStatus
  due_date : Nat
  payment : Option Nat
deriving DecidableEq, Repr

/-- Invoice.is_overdue (src/payments/models.py lines 106-107): status is
still PENDING and the due date is strictly before today. -/
def is_overdue (today : Nat) (i : Invoice) : Bool :=
  (i.status == InvStatus.pending) && (i.due_date < today)

/-- Invoice.save (src/payments/models.py lines 109-112): flips a pending
invoice past its due date to OVERDUE before persisting. -/
def invoiceSave (today : Nat) (i : Invoice) : Invoice :=
  if is_overdue today i ∧ i.status = .pending then { i with status := .overdue }
  else i

/-- Reading an invoice (list/retrieve) loads the stored row and
serializes it; no save hook runs on a GET, so the row is observed exactly
as stored (the serializer adds a separate is_overdue boolean, it does not
rewrite the status field). -/
def invoiceRead (i : Invoice) : Invoice := i

/-- The Transaction row created by verify_payment (src/payments/models.py
lines 65-72). -/
structure TransactionRec where
  paymentId : Nat
  transaction_type : String
  status : String
deriving DecidableEq, Repr

/-- PaymentViewSet.verify_payment (src/payments/views.py lines 69-98).
The handler unconditionally sets status to COMPLETED and overwrites
completed_at with the current time, saves (the Payment.save guard is then
a no-op because completed_at is set), records a fresh Transaction row,
and, when an invoice is linked, sets it to PAID and saves it.  There is
no check of the current status and no rejection path. -/
def verify_payment (now today : Nat) (p : Payment) (inv : Option Invoice)
    (txns : List TransactionRec) : Payment × Option Invoice × List TransactionRec :=
  let p1 := paymentSave now { p with status := .completed, completed_at := some now }
  let txns1 := txns ++ [{ paymentId := p.id, transaction_type := "verification",
                          status := "success" }]
  let inv1 := inv.map (fun i => invoiceSave today { i with status := .paid })
  (p1, inv1, txns1)

/-- Lead.STATUS_CHOICES (src/leads/models.py). -/
inductive LeadStatus
  | fresh
  | contacted
  | qualified
  | lost
  | converted
deriving DecidableEq, Repr

/-- The fields of the Lead model the status logic touches
(src/leads/models.py): the creating user and the linked property. -/
structure Lead where
  id : Nat
  user : Nat
  property : Property
  status : LeadStatus
deriving DecidableEq, Repr

/-- Membership test of a raw status value in dict(Lead.STATUS_CHOICES)
(src/leads/views.py line 37); the stored keys are the lowercase strings
of src/leads/models.py. -/
def leadStatusOfString : String → Option LeadStatus
  | "new" => some .fresh
  | "contacted" => some .contacted
  | "qualified" => some .qualified
  | "lost" => some .lost
  | "converted" => some .converted
  | _ => none

/-- LeadViewSet.get_queryset (src/leads/views.py lines 21-27): property
owners and real-estate firms see leads on their properties; every other
role, admins included, sees only the leads it created. -/
def leadInQueryset (a : Actor) (l : Lead) : Bool :=
  if a.role == Role.propertyOwner || a.role == Role.realEstateFirm then
    l.property.owner == a.id
  else
    l.user == a.id

/-- LeadViewSet.update_status (src/leads/views.py lines 32-49), as
dispatched: IsAuthenticated permission, get_object against the caller
queryset (404 outside it), then a 400 for a missing or unlisted status
value, a 403 unless the caller owns the linked property or is an admin,
and finally the plain field write (any enumerated value is accepted from
any current status). -/
def leadUpdateStatusEndpoint (a : Actor) (l : Lead) (raw : Option String) :
    Except ErrKind Lead :=
  if ¬ a.authenticated then .error .forbidden
  else if ¬ leadInQueryset a l then .error .notFound
  else
    match raw with
    | none => .error .badRequest
    | some s =>
      match leadStatusOfString s with
      | none => .error .badRequest
      | some st =>
        if a.id ≠ l.property.owner ∧ a.role ≠ Role.admin then .error .forbidden
        else .ok { l with status := st }

/-- The generic update/partial_update on LeadViewSet: the only permission
is IsAuthenticated (src/leads/views.py line 15), the object must be in
the caller queryset, and LeadSerializer (src/leads/serializers.py lines
10-18) lists status as a writable field (only id, user, created_at,
updated_at are read-only), so the write lands after choice validation,
which the typed argument reflects. -/
def leadGenericUpdate (a : Actor) (l : Lead) (st : LeadStatus) :
    Except ErrKind Lead :=
  if ¬ a.authenticated then .error .forbidden
  else if ¬ leadInQueryset a l then .error .notFound
  else .ok { l with status := st }

/-- PropertyViewSet.get_permissions for list and retrieve
(src/properties/views.py lines 71-72): the permission list is empty, so
every caller, unauthenticated included, passes. -/
def propertyListRetrievePermitted (a : Option Actor) : Bool := true

/-- PropertyViewSet.queryset (src/properties/views.py line 50): the base
queryset used by list and retrieve filters only on is_active; the
verification status is not constrained. -/
def propertyListQueryset (props : List Property) : List Property :=
  props.filter (fun p => p.is_active)

/-- PropertyViewSet.search (src/properties/views.py lines 107-144): the
base queryset requires is_active and verification_status VERIFIED; the
optional price bounds model the narrowing min_price/max_price query
parameters (the remaining filters narrow the set in the same way). -/
def propertySearch (minPrice maxPrice : Option Nat) (props : List Property) :
    List Property :=
  let q := props.filter (fun p =>
    p.is_active && (p.verification_status == VerificationStatus.verified))
  let q1 := match minPrice with
    | some m => q.filter (fun p => m ≤ p.price)
    | none => q
  match maxPrice with
  | some m => q1.filter (fun p => p.price ≤ m)
  | none => q1

/-- UserViewSet.get_permissions for create (src/users/views.py lines
24-26): AllowAny, so even an unauthenticated caller may register. -/
def userCreatePermitted (a : Option Actor) : Bool := true

/-- UserSerializer.validate (src/users/serializers.py lines 19-22):
password and confirmation must match. -/
def userSerializerValidate (password confirmation : String) :
    Except ErrKind Unit :=
  if password ≠ confirmation then .error .validation else .ok ()

/-- UserSerializer.create (src/users/serializers.py lines 24-36): the
stored role is validated_data.get(role, BUYER_RENTER) — whatever the
caller supplied, defaulting only when the field is omitted; is_verified
starts false (model default, and the field is read-only). -/
def userSerializerCreate (nextId : Nat) (email first last : String)
    (role : Option Role) : UserRec :=
  { id := nextId, email := email, first_name := first, last_name := last,
    role := role.getD Role.buyerRenter, is_verified := false }

/-- The registration endpoint: AllowAny permission, then validate, then
create (src/users/views.py, src/users/serializers.py). -/
def userRegister (nextId : Nat) (email first last password confirmation : String)
    (role : Option Role) : Except ErrKind UserRec :=
  match userSerializerValidate password confirmation with
  | .error e => .error e
  | .ok _ => .ok (userSerializerCreate nextId email first last role)

/-- UserUpdateSerializer (src/users/serializers.py lines 39-44): its field
list is first_name, last_name, phone_number, address, profile_picture —
role and is_verified are not writable through the update action. -/
def userGenericUpdate (u : UserRec) (first last : String) : UserRec :=
  { u with first_name := first, last_name := last }

/-- Modelled from the spec: the Payment status lattice of section 4.2,
PENDING to COMPLETED or FAILED, COMPLETED to REFUNDED.  The source has no
such table; this definition follows the spec words so that the behaviour
of verify_payment can be compared against it. -/
def specPaymentLatticeAllows : PayStatus → PayStatus → Bool
  | .pending, .completed => true
  | .pending, .failed => true
  | .completed, .refunded => true
  | _, _ => false

/-- A property carrying a verifier stamp from an earlier VERIFIED review. -/
def samplePropStamped : Property :=
  { id := 1, owner := 3, price := 1000, verification_status := .verified,
    rejection_reason := none, verified_by := some 2, verified_at := some 55,
    is_featured := false, is_active := true }

/-- A freshly created, still pending, active property. -/
def samplePropPending : Property :=
  { id := 2, owner := 3, price := 500, verification_status := .pending,
    rejection_reason := none, verified_by := none, verified_at := none,
    is_featured := false, is_active := true }

/-- A verified buyer/renter, not the owner of any sample property. -/
def buyerActor : Actor :=
  { id := 7, role := .buyerRenter, authenticated := true, is_verified := true }

/-- A KYC record previously approved, so carrying a verifier stamp. -/
def sampleKycStamped : KYCVerification :=
  { userId := 7, status := .approved, verified_by := some 4,
    verified_at := some 7, rejection_reason := none }

/-- A KYC record still pending review. -/
def sampleKycPending : KYCVerification :=
  { userId := 7, status := .pending, verified_by := none,
    verified_at := none, rejection_reason := none }

/-- The user owning the sample KYC records. -/
def sampleKycUser : UserRec :=
  { id := 7, email := "u@example.com", first_name := "Ade", last_name := "Ojo",
    role := .buyerRenter, is_verified := true }

/-- A payment that has already failed. -/
def sampleFailedPayment : Payment :=
  { id := 11, payer := 7, receiver := 3, status := .failed, completed_at := none }

/-- A payment still pending completion. -/
def samplePendingPayment : Payment :=
  { id := 12, payer := 7, receiver := 3, status := .pending, completed_at := none }

/-- A pending invoice linked to the pending payment, not yet due. -/
def sampleInvoiceLinked : Invoice :=
  { id := 21, user := 7, status := .pending, due_date := 99, payment := some 12 }

/-- A pending invoice whose due date (day 3) is already past on day 5. -/
def sampleOverdueInvoice : Invoice :=
  { id := 22, user := 7, status := .pending, due_date := 3, payment := none }

/-- A lead created by the buyer (id 7) on a property owned by user 3. -/
def sampleLead : Lead :=
  { id := 31, user := 7, property := samplePropPending, status := .fresh }

/-- First invocation of verify_payment on the pending payment at time 100. -/
def c5FirstRun : Payment × Option Invoice × List TransactionRec :=
  verify_payment 100 50 samplePendingPayment (some sampleInvoiceLinked) []

/-- Second invocation of verify_payment on the same, now completed,
payment at the later time 200. -/
def c5SecondRun : Payment × Option Invoice × List TransactionRec :=
  verify_payment 200 50 c5FirstRun.1 c5FirstRun.2.1 c5FirstRun.2.2

/-- An authenticated buyer/renter who has not passed KYC. -/
def unverifiedBuyer : Actor :=
  { id := 8, role := .buyerRenter, authenticated := true, is_verified := false }

/-- C1 counterexample: the claim says a transition to REJECTED clears
verified_by and verified_at.  On a property carrying the stamp
(verified_by = some 2, verified_at = some 55), rejecting with a non-empty
reason succeeds but the stamp survives unchanged, so it is not cleared to
none as claimed. -/
theorem C1_counterexample :
    (propertyVerify 9 100 samplePropStamped .rejected (some "bad docs")).map
        (fun p => (p.verified_by, p.verified_at)) = .ok (some 2, some 55) ∧
      ((some 2 : Option Nat), (some 55 : Option Nat)) ≠ (none, none) :=
  ⟨rfl, by decide⟩

/-- C1 amended: a transition to VERIFIED sets verification_status,
stamps verified_by with the acting user and verified_at with the current
time and clears rejection_reason; a transition to REJECTED with a
non-empty reason stores the reason and leaves verified_by and
verified_at unchanged. -/
theorem C1_amended_verify_and_reject (p : Property) (actorId now : Nat)
    (reason r : Option String) (hr : strBlank r = false) :
    propertyVerify actorId now p .verified reason =
      .ok { p with verification_status := .verified, verified_by := some actorId,
                   verified_at := some now, rejection_reason := none } ∧
    propertyVerify actorId now p .rejected r =
      .ok { p with verification_status := .rejected, rejection_reason := r } := by
  constructor
  · simp [propertyVerify, propertyVerificationValidate, propertyVerificationUpdate]
  · simp [propertyVerify, propertyVerificationValidate, propertyVerificationUpdate, hr]

/-- C1 amended witness: the amended theorem evaluated on the pending
sample property with verifier 9 at time 100. -/
theorem C1_amended_verify_and_reject_witness :
    strBlank (some "no docs") = false ∧
    propertyVerify 9 100 samplePropPending .verified none =
      .ok { samplePropPending with
              verification_status := .verified, verified_by := some 9,
              verified_at := some 100, rejection_reason := none } :=
  ⟨by decide,
   (C1_amended_verify_and_reject samplePropPending 9 100 none (some "no docs")
     (by decide)).1⟩

/-- C2 counterexample: the claim says rejecting with a non-empty reason
clears any prior verifier stamp.  Rejecting the stamped KYC record
(verified_by = some 4, verified_at = some 7) succeeds, but the stamp
survives, so it is not cleared. -/
theorem C2_counterexample :
    (kycUpdate 9 sampleKycStamped sampleKycUser .rejected (some "blurry")).map
        (fun r => (r.1.verified_by, r.1.verified_at)) = .ok (some 4, some 7) ∧
      ((some 4 : Option Nat), (some 7 : Option Nat)) ≠ (none, none) :=
  ⟨rfl, by decide⟩

/-- C2 amended: for both Property and KYCVerification, requesting
REJECTED with an empty or missing reason fails with a validation error
and the entity is unchanged; requesting REJECTED with a non-empty reason
succeeds, stores the reason (and for KYC sets the owning user
is_verified flag to false) but leaves any prior verifier stamp in
place. -/
theorem C2_amended_reject_paths (p : Property) (k : KYCVerification)
    (u : UserRec) (actorId now : Nat) (reason : Option String) (r : String)
    (hblank : strBlank reason = true) (hr : r ≠ "") :
    propertyVerify actorId now p .rejected reason = .error .validation ∧
    kycUpdate actorId k u .rejected reason = .error .validation ∧
    propertyVerify actorId now p .rejected (some r) =
      .ok { p with verification_status := .rejected, rejection_reason := some r } ∧
    kycUpdate actorId k u .rejected (some r) =
      .ok ({ k with status := .rejected, rejection_reason := some r },
           { u with is_verified := false }) := by
  have hrb : strBlank (some r) = false := by simp [strBlank, hr]
  refine ⟨?_, ?_, ?_, ?_⟩
  · simp [propertyVerify, propertyVerificationValidate, hblank]
  · simp [kycUpdate, kycUpdateValidate, hblank]
  · simp [propertyVerify, propertyVerificationValidate, propertyVerificationUpdate, hrb]
  · simp [kycUpdate, kycUpdateValidate, hrb]

/-- C2 amended witness: the amended theorem evaluated on the pending
sample records, with a missing reason and with the reason "blurry". -/
theorem C2_amended_reject_paths_witness :
    strBlank none = true ∧ "blurry" ≠ "" ∧
    kycUpdate 9 sampleKycPending sampleKycUser .rejected none =
      .error .validation :=
  ⟨rfl, by decide,
   (C2_amended_reject_paths samplePropPending sampleKycPending sampleKycUser
     9 0 none "blurry" rfl (by decide)).2.1⟩

/-- C3 counterexample: the claim says a transition outside the allowed
target set — such as completing a FAILED payment — is rejected and the
entity is not modified.  verify_payment on the failed sample payment is
not rejected: it modifies the payment and sets it to COMPLETED, although
the spec lattice does not allow FAILED to COMPLETED. -/
theorem C3_counterexample :
    specPaymentLatticeAllows .failed .completed = false ∧
    (verify_payment 5 10 sampleFailedPayment none []).1.status = .completed ∧
    (verify_payment 5 10 sampleFailedPayment none []).1 ≠ sampleFailedPayment :=
  ⟨rfl, rfl, by decide⟩

/-- C3 amended: verify_payment performs no lattice check at all: from
every current status, FAILED and REFUNDED included, it sets the payment
to COMPLETED and stamps completed_at with the current time; no request
is rejected with INVALID_TRANSITION. -/
theorem C3_amended_no_lattice_check (now today : Nat) (p : Payment)
    (inv : Option Invoice) (txns : List TransactionRec) :
    (verify_payment now today p inv txns).1.status = .completed ∧
    (verify_payment now today p inv txns).1.completed_at = some now := by
  constructor <;> simp [verify_payment, paymentSave]

/-- C4 evaluation at the failing input: an admin (id 1) approving the
pending sample KYC record.  The update raises SkipField (the verified_at
expression calls DateTimeField().get_default() on a field with no
default) before either save, so the approval never sets is_verified or
persists anything, contradicting the claim and the repository test
test_admin_can_approve_kyc. -/
theorem C4_code_bug_eval :
    kycUpdate 1 sampleKycPending sampleKycUser .approved none =
      .error .skipField := rfl

/-- C5 counterexample: the claim says applying the completion transition
twice yields the same completed_at value both times.  Completing the
pending sample payment at time 100 and again at time 200 yields
completed_at = some 100 after the first call but some 200 after the
second: the endpoint overwrites the timestamp. -/
theorem C5_counterexample :
    c5FirstRun.1.completed_at = some 100 ∧
    c5SecondRun.1.completed_at = some 200 ∧
    (some 100 : Option Nat) ≠ some 200 :=
  ⟨rfl, rfl, by decide⟩

/-- C5 amended: Payment.save alone never overwrites a set completed_at,
and a second completion leaves the linked invoice exactly as the first
left it (PAID), but the verify_payment endpoint assigns a fresh
timestamp on every invocation, so the completed_at observed after the
second application is the second current time, not the first. -/
theorem C5_amended_overwrite_and_save_guard (p : Payment)
    (inv : Option Invoice) (txns : List TransactionRec)
    (now1 now2 today : Nat) (q : Payment) (t : Nat) :
    (verify_payment now2 today (verify_payment now1 today p inv txns).1
        (verify_payment now1 today p inv txns).2.1
        (verify_payment now1 today p inv txns).2.2).1.completed_at = some now2 ∧
    (paymentSave now2 { q with completed_at := some t }).completed_at = some t ∧
    (verify_payment now2 today (verify_payment now1 today p inv txns).1
        (verify_payment now1 today p inv txns).2.1
        (verify_payment now1 today p inv txns).2.2).2.1 =
      (verify_payment now1 today p inv txns).2.1 := by
  refine ⟨?_, ?_, ?_⟩
  · simp [verify_payment, paymentSave]
  · simp [paymentSave]
  · cases inv with
    | none => simp [verify_payment]
    | some i => simp [verify_payment, invoiceSave, is_overdue]

/-- C6 counterexample: the claim says every property row returned to an
unverified buyer/renter by list, retrieve or search is VERIFIED.  The
list endpoint is open to everyone and its queryset filters only on
is_active, so the unverified buyer receives the active PENDING sample
property. -/
theorem C6_counterexample :
    propertyListRetrievePermitted (some unverifiedBuyer) = true ∧
    propertyListQueryset [samplePropPending] = [samplePropPending] ∧
    samplePropPending.verification_status ≠ .verified :=
  ⟨rfl, rfl, by decide⟩

/-- C6 amended: only the search operation restricts results to VERIFIED
(and active) properties — every row it returns is VERIFIED and active;
the list and retrieve operations filter on is_active alone, so rows of
any verification status reach unverified buyers there. -/
theorem C6_amended_search_only_verified (minP maxP : Option Nat)
    (props : List Property) (p : Property)
    (hp : p ∈ propertySearch minP maxP props) :
    p.verification_status = .verified ∧ p.is_active = true := by
  cases minP <;> cases maxP <;>
    simp [propertySearch, List.mem_filter] at hp <;>
    constructor <;> tauto

/-- C6 amended witness: the stamped verified sample property is returned
by search over the singleton list, and is indeed VERIFIED. -/
theorem C6_amended_search_only_verified_witness :
    samplePropStamped ∈ propertySearch none none [samplePropStamped] ∧
    samplePropStamped.verification_status = .verified :=
  ⟨by decide,
   (C6_amended_search_only_verified none none [samplePropStamped]
     samplePropStamped (by decide)).1⟩

/-- C7 confirmed: an actor whose role is neither ADMIN nor GOVERNMENT is
rejected with FORBIDDEN before the handler runs, so the property is left
unchanged; and the verify permission holds exactly for authenticated
admins and government agencies. -/
theorem C7_verify_forbidden_for_other_roles (a : Actor) (now : Nat)
    (p : Property) (vs : VerificationStatus) (reason : Option String)
    (h1 : a.role ≠ .admin) (h2 : a.role ≠ .government) :
    propertyVerifyEndpoint a now p vs reason = .error .forbidden ∧
    (propertyVerifyPermitted a = true ↔
      a.authenticated = true ∧ (a.role = .admin ∨ a.role = .government)) := by
  constructor
  · simp [propertyVerifyEndpoint, propertyVerifyPermitted, IsAdmin,
          IsGovernmentAgency, h1, h2]
  · simp only [propertyVerifyPermitted, IsAdmin, IsGovernmentAgency,
               Bool.or_eq_true, Bool.and_eq_true, beq_iff_eq]
    tauto

/-- C7 witness: the verified buyer requesting VERIFIED on the pending
sample property is rejected with FORBIDDEN. -/
theorem C7_verify_forbidden_for_other_roles_witness :
    buyerActor.role ≠ Role.admin ∧ buyerActor.role ≠ Role.government ∧
    propertyVerifyEndpoint buyerActor 0 samplePropPending .verified none =
      .error .forbidden :=
  ⟨by decide, by decide,
   (C7_verify_forbidden_for_other_roles buyerActor 0 samplePropPending
     .verified none (by decide) (by decide)).1⟩

/-- C8 counterexample: the claim says a status write by any actor other
than the property owner or an admin — including the buyer who created
the lead, through any update operation — is rejected and leaves the lead
unchanged.  The buyer who created the sample lead changes its status to
CONVERTED through the generic update endpoint, which only requires
authentication and queryset membership. -/
theorem C8_counterexample :
    leadGenericUpdate buyerActor sampleLead .converted =
      .ok { sampleLead with status := .converted } ∧
    ({ sampleLead with status := .converted } : Lead).status ≠
      sampleLead.status :=
  ⟨rfl, by decide⟩

/-- C8 amended: through the update_status action the status is writable
only by the linked property owner (or an admin whose own queryset
contains the lead): an authorized owner-role caller succeeds for every
enumerated value from any current status, any other caller in scope gets
FORBIDDEN, and a value outside the enumerated set gets a 400; but the
generic update endpoint lets any authenticated caller whose queryset
contains the lead — in particular the buyer who created it — write any
enumerated status value. -/
theorem C8_amended_status_write_paths (a : Actor) (l : Lead) (s : String)
    (st : LeadStatus) (hauth : a.authenticated = true) :
    ((a.role = .propertyOwner ∨ a.role = .realEstateFirm) →
      l.property.owner = a.id → leadStatusOfString s = some st →
      leadUpdateStatusEndpoint a l (some s) = .ok { l with status := st }) ∧
    (leadInQueryset a l = true → a.id ≠ l.property.owner →
      a.role ≠ .admin → leadStatusOfString s = some st →
      leadUpdateStatusEndpoint a l (some s) = .error .forbidden) ∧
    (leadInQueryset a l = true → leadStatusOfString s = none →
      leadUpdateStatusEndpoint a l (some s) = .error .badRequest) ∧
    (¬ (a.role = .propertyOwner ∨ a.role = .realEstateFirm) →
      l.user = a.id → leadGenericUpdate a l st = .ok { l with status := st }) := by
  refine ⟨?_, ?_, ?_, ?_⟩
  · intro hrole hown hs
    have hq : leadInQueryset a l = true := by
      rcases hrole with h | h <;> simp [leadInQueryset, h, hown]
    simp [leadUpdateStatusEndpoint, hauth, hq, hs, hown]
  · intro hq hneq hadmin hs
    simp [leadUpdateStatusEndpoint, hauth, hq, hs, hneq, hadmin]
  · intro hq hs
    simp [leadUpdateStatusEndpoint, hauth, hq, hs]
  · intro hrole huser
    have h1 : a.role ≠ .propertyOwner := fun h => hrole (Or.inl h)
    have h2 : a.role ≠ .realEstateFirm := fun h => hrole (Or.inr h)
    have hq : leadInQueryset a l = true := by
      simp [leadInQueryset, h1, h2, huser]
    simp [leadGenericUpdate, hauth, hq]

/-- C8 amended witness: the buyer who created the sample lead writes the
status LOST through the generic update endpoint. -/
theorem C8_amended_status_write_paths_witness :
    buyerActor.authenticated = true ∧
    ¬ (buyerActor.role = Role.propertyOwner ∨
        buyerActor.role = Role.realEstateFirm) ∧
    sampleLead.user = buyerActor.id ∧
    leadGenericUpdate buyerActor sampleLead .lost =
      .ok { sampleLead with status := .lost } :=
  ⟨rfl, by decide, rfl,
   (C8_amended_status_write_paths buyerActor sampleLead "lost" .lost
     rfl).2.2.2 (by decide) rfl⟩

/-- C9 counterexample: the claim says a PENDING invoice past its due date
shows status OVERDUE on any read.  Reading the sample invoice (due day 3,
observed on day 5) performs no save, so the observed status is still
PENDING, not OVERDUE — only is_overdue computes to true. -/
theorem C9_counterexample :
    invoiceRead sampleOverdueInvoice = sampleOverdueInvoice ∧
    sampleOverdueInvoice.status = .pending ∧
    is_overdue 5 sampleOverdueInvoice = true ∧
    InvStatus.pending ≠ InvStatus.overdue :=
  ⟨rfl, rfl, rfl, by decide⟩

/-- C9 amended: the lazy OVERDUE rule applies on save only: saving a
PENDING invoice whose due_date is strictly past flips it to OVERDUE, and
invoices that are not PENDING or not past due are saved unchanged; a
read returns the row as stored, without the flip. -/
theorem C9_amended_overdue_on_save_only (i : Invoice) (today : Nat) :
    (i.status = .pending → i.due_date < today →
      invoiceSave today i = { i with status := .overdue }) ∧
    (i.status ≠ .pending → invoiceSave today i = i) ∧
    (¬ i.due_date < today → invoiceSave today i = i) ∧
    invoiceRead i = i := by
  refine ⟨?_, ?_, ?_, rfl⟩
  · intro h1 h2
    simp [invoiceSave, is_overdue, h1, h2]
  · intro h
    simp [invoiceSave, is_overdue, h]
  · intro h
    simp [invoiceSave, is_overdue, h]

/-- C9 amended witness: saving the overdue pending sample invoice on day
5 flips it to OVERDUE. -/
theorem C9_amended_overdue_on_save_only_witness :
    sampleOverdueInvoice.status = .pending ∧ sampleOverdueInvoice.due_date < 5 ∧
    invoiceSave 5 sampleOverdueInvoice =
      { sampleOverdueInvoice with status := .overdue } :=
  ⟨rfl, by decide,
   (C9_amended_overdue_on_save_only sampleOverdueInvoice 5).1 rfl (by decide)⟩

/-- C10 confirmed: registration is open to unauthenticated callers and
stores whatever role the caller supplies — every value of the role
choices, ADMIN and GOVERNMENT included — defaulting to BUYER_RENTER only
when the field is omitted; the update serializer cannot change the
stored role. -/
theorem C10_registration_stores_supplied_role (nextId : Nat)
    (email first last pwd : String) (r : Role) :
    userCreatePermitted none = true ∧
    userRegister nextId email first last pwd pwd (some r) =
      .ok { id := nextId, email := email, first_name := first,
            last_name := last, role := r, is_verified := false } ∧
    userRegister nextId email first last pwd pwd none =
      .ok { id := nextId, email := email, first_name := first,
            last_name := last, role := .buyerRenter, is_verified := false } ∧
    (∀ u : UserRec, ∀ f l : String, (userGenericUpdate u f l).role = u.role) := by
  refine ⟨rfl, ?_, ?_, fun u f l => rfl⟩
  · simp [userRegister, userSerializerValidate, userSerializerCreate]
  · simp [userRegister, userSerializerValidate, userSerializerCreate]

end LagosPortal
